import Mathlib

/-!
Verification development for the orphea-api repository.

The decision logic of the repository lives in three request handlers:
the diagnostic interview state machine (`api/diagnostic/chat` handler),
the persona routers of the team chat (`api/team/chat.ts`), and the
start-diagnostic validation/honeypot (`api/diagnostic/start.ts`).
This file gives a shallow embedding of those functions and proves or
refutes the specified properties.

JavaScript strings are modelled as `List Char`.  External effects
(the Anthropic completion call, the JSON parse of its reply, the Redis
store) are modelled as explicit parameters of the embedded handlers,
and the embedded results record how many times each external call was
made and which states were written to the store.
-/

namespace Orphea

/-- JS strings are modelled as lists of characters. -/
abbrev Str := List Char

/-- Models `String.prototype.toLowerCase` (exact on ASCII; every keyword
and marker in the source is ASCII or already lowercase). -/
def jsToLower (s : Str) : Str := s.map Char.toLower

/-- `leadsWith p s` : does `s` start with the pattern `p` (case-sensitive)? -/
def leadsWith : Str → Str → Bool
  | [], _ => true
  | _ :: _, [] => false
  | p :: ps, c :: cs => p == c && leadsWith ps cs

/-- Models `s.includes(p)` of JS (case-sensitive substring test). -/
def containsSub (s p : Str) : Bool :=
  match s with
  | [] => p.isEmpty
  | _ :: rest => leadsWith p s || containsSub rest p

/-- Case-insensitive substring test (`/p/i` matching somewhere in `s`). -/
def containsSubCI (s p : Str) : Bool :=
  containsSub (jsToLower s) (jsToLower p)

/-- Fuel-driven worker for `stripCI`; the fuel starts at `s.length`,
which bounds the number of scanning steps. -/
def stripCIAux (p : Str) : Nat → Str → Str
  | _, [] => []
  | 0, s => s
  | fuel + 1, c :: rest =>
    if leadsWith (jsToLower p) (jsToLower (c :: rest)) && !p.isEmpty then
      stripCIAux p fuel (rest.drop (p.length - 1))
    else
      c :: stripCIAux p fuel rest

/-- Models `s.replace(/p/gi, '')` for a literal pattern `p`: one
left-to-right pass removing every non-overlapping case-insensitive
occurrence of `p`. -/
def stripCI (p s : Str) : Str := stripCIAux p s.length s

/-- Models `s.replace('p', '')` of JS: removes only the first
(case-sensitive) occurrence of `p`, if any. -/
def dropFirstOcc (p : Str) : Str → Str
  | [] => []
  | c :: rest =>
    if leadsWith p (c :: rest) && !p.isEmpty then rest.drop (p.length - 1)
    else c :: dropFirstOcc p rest

/-- Position of the first `|>` closer reachable from here without
crossing a line terminator (the `.` of `/<\|.*?\|>/` does not match
newlines), as used by the lazy regex `<\|.*?\|>`. -/
def findClose : Str → Option Nat
  | [] => none
  | '|' :: '>' :: _ => some 0
  | c :: rest => if c == '\n' || c == '\r' then none else (findClose rest).map (· + 1)

/-- Fuel-driven worker for `dropAngles`. -/
def dropAnglesAux : Nat → Str → Str
  | _, [] => []
  | 0, s => s
  | fuel + 1, '<' :: '|' :: tail =>
    match findClose tail with
    | some k => dropAnglesAux fuel (tail.drop (k + 2))
    | none => '<' :: dropAnglesAux fuel ('|' :: tail)
  | fuel + 1, c :: rest => c :: dropAnglesAux fuel rest

/-- Models `s.replace(/<\|.*?\|>/g, '')`. -/
def dropAngles (s : Str) : Str := dropAnglesAux s.length s

/-- JS whitespace for `trim` (the ASCII part, which covers every input
appearing in the source and in this file). -/
def isJsSpace (c : Char) : Bool :=
  c == ' ' || c == '\t' || c == '\n' || c == '\r' || c == '\x0b' || c == '\x0c'

/-- Models `s.trim()`. -/
def jsTrim (s : Str) : Str :=
  ((s.dropWhile isJsSpace).reverse.dropWhile isJsSpace).reverse

/-- The `[SYSTEM]` role marker stripped by the sanitizers. -/
def systemMarker : Str := "[SYSTEM]".data

/-- The `[ASSISTANT]` role marker stripped by the sanitizers. -/
def assistantMarker : Str := "[ASSISTANT]".data

/-- The completion sentinel `[DIAGNOSTIC_COMPLETE]`. -/
def completeSentinel : Str := "[DIAGNOSTIC_COMPLETE]".data

/-- The three-backtick code-fence token removed by the diagnostic
sanitizer (built from character codes). -/
def tripleTick : Str := [Char.ofNat 96, Char.ofNat 96, Char.ofNat 96]

/-- `sanitizeInput` of the diagnostic interview handler: strips
`[SYSTEM]`, `[ASSISTANT]`, `[DIAGNOSTIC_COMPLETE]` (each `/gi`), then
`<|...|>` blocks, then code fences, then trims. -/
def sanitizeInput (input : Str) : Str :=
  jsTrim (stripCI tripleTick (dropAngles (stripCI completeSentinel
    (stripCI assistantMarker (stripCI systemMarker input)))))



/-- The closed set of team personas (`AgentId` of `lib/team-prompts.ts`). -/
inductive AgentId
  | lea
  | marc
  | sophie
deriving DecidableEq, Repr

/-- `ROUTING_RULES.lea.keywords` of `lib/team-prompts.ts`. -/
def leaKeywords : List Str :=
  ["roi", "budget", "stratégie", "strategie", "prioriser", "commencer",
   "pertinent", "pertinence", "business", "valeur", "investir",
   "investissement", "coût", "cout", "rentable", "rentabilité", "objectif",
   "vision", "transformation", "digitale", "digital", "priorité", "priorite",
   "opportunité", "opportunite", "secteur", "industrie"].map (·.data)

/-- `ROUTING_RULES.marc.keywords` of `lib/team-prompts.ts`. -/
def marcKeywords : List Str :=
  ["technique", "intégration", "integration", "api", "rag", "chatgpt",
   "copilot", "claude", "llm", "outil", "outils", "erp", "crm", "salesforce",
   "microsoft", "automatisation", "workflow", "n8n", "code", "développement",
   "developpement", "architecture", "sécurité", "securite", "données",
   "donnees", "faisable", "faisabilité", "faisabilite", "chatbot", "bot",
   "comment ça marche", "comment ca marche", "fonctionnement"].map (·.data)

/-- `ROUTING_RULES.sophie.keywords` of `lib/team-prompts.ts`. -/
def sophieKeywords : List Str :=
  ["projet", "étape", "etape", "planning", "durée", "duree", "temps",
   "combien de temps", "livrable", "formation", "équipe", "equipe",
   "accompagnement", "méthodologie", "methodologie", "gouvernance", "loi 25",
   "rgpd", "conformité", "conformite", "changement", "adoption",
   "déploiement", "deploiement", "calendrier", "semaines", "mois"].map (·.data)

/-- Keyword score of one persona: the number of its keywords occurring as
substrings of the lowercased message (each keyword counted once), as in
the scoring loop of `routeByKeywords`. -/
def keywordScore (kws : List Str) (lowerMsg : Str) : Nat :=
  (kws.filter (fun k => containsSub lowerMsg k)).length

/-- Selection step of `routeByKeywords` on the three scores: `'lea'` when
all scores are zero, otherwise the first entry of the record
`{ lea, marc, sophie }` (in insertion order) whose score equals the
maximum, exactly as `Object.entries(scores).find(...)` does. -/
def pickAgent (sLea sMarc sSophie : Nat) : AgentId :=
  let maxScore := max sLea (max sMarc sSophie)
  if maxScore = 0 then AgentId.lea
  else if sLea = maxScore then AgentId.lea
  else if sMarc = maxScore then AgentId.marc
  else AgentId.sophie

/-- `routeByKeywords` of `api/team/chat.ts`: keyword scoring of the
lowercased message followed by max selection with first-entry tie-break. -/
def routeByKeywords (message : Str) : AgentId :=
  let m := jsToLower message
  pickAgent (keywordScore leaKeywords m) (keywordScore marcKeywords m)
    (keywordScore sophieKeywords m)

/-- The maximum keyword score over the three personas, recomputed by
`smartRoute` with the same loops as `routeByKeywords`. -/
def maxKeywordScore (message : Str) : Nat :=
  let m := jsToLower message
  max (keywordScore leaKeywords m)
    (max (keywordScore marcKeywords m) (keywordScore sophieKeywords m))

/-- Outcome of the completion-service routing call in `routeByLLM`,
modelled explicitly: no configured client, a thrown error, or a
successful reply with the given text (`''` models a missing text block). -/
inductive LLMOutcome
  | noClient
  | failure
  | reply (text : Str)

/-- `routeByLLM` of `api/team/chat.ts`: without a client or on a thrown
error it falls back to `routeByKeywords`; on a successful reply it
lowercases and trims the text (an empty text defaults to `'lea'`) and
returns the named persona when recognized, `'lea'` otherwise. -/
def routeByLLM (message : Str) (o : LLMOutcome) : AgentId :=
  match o with
  | .noClient => routeByKeywords message
  | .failure => routeByKeywords message
  | .reply t =>
    let name0 := jsTrim (jsToLower t)
    let name := if name0 = [] then "lea".data else name0
    if name = "lea".data then AgentId.lea
    else if name = "marc".data then AgentId.marc
    else if name = "sophie".data then AgentId.sophie
    else AgentId.lea

/-- Result of `smartRoute`, recording whether `routeByLLM` was invoked. -/
structure RouteResult where
  agent : AgentId
  llmUsed : Bool
deriving DecidableEq, Repr

/-- `smartRoute` of `api/team/chat.ts`: return the keyword result
directly when the maximum keyword score is at least 2, otherwise defer
to `routeByLLM`. -/
def smartRoute (message : Str) (o : LLMOutcome) : RouteResult :=
  let keywordResult := routeByKeywords message
  if 2 ≤ maxKeywordScore message then ⟨keywordResult, false⟩
  else ⟨routeByLLM message o, true⟩

/-- `technicalKeywords` of `shouldRedirect` (the narrower taxonomy). -/
def technicalKeywords : List Str :=
  ["rag", "llm", "api", "intégration", "integration", "installer",
   "installation", "technique", "techniquement", "outil", "outils", "code",
   "développer", "chatgpt", "copilot", "claude", "erp", "crm", "sharepoint",
   "automatisation", "workflow", "fine-tuning", "fine tuning", "prompt",
   "embedding", "vector", "elasticsearch", "architecture technique",
   "connecteur", "indexer", "indexation", "configurer"].map (·.data)

/-- `strategyKeywords` of `shouldRedirect`. -/
def strategyKeywords : List Str :=
  ["stratégie", "strategie", "roi", "retour sur investissement", "budget",
   "prioriser", "priorité", "priorite", "business", "valeur ajoutée",
   "pertinent", "pertinence", "commencer", "débuter", "par où", "investir",
   "investissement", "rentable", "rentabilité", "objectif business"].map (·.data)

/-- `projectKeywords` of `shouldRedirect`. -/
def projectKeywords : List Str :=
  ["planning", "durée", "duree", "combien de temps", "délai", "delai",
   "méthodologie", "methodologie", "gouvernance", "loi 25", "rgpd",
   "formation", "accompagnement", "livrable", "étapes du projet",
   "déroulement"].map (·.data)

/-- Score of a persona on the redirect taxonomy for a lowercased message
(`technicalKeywords` for marc, `strategyKeywords` for lea,
`projectKeywords` for sophie). -/
def redirectScoreOf (message : Str) (a : AgentId) : Nat :=
  let m := jsToLower message
  match a with
  | .marc => keywordScore technicalKeywords m
  | .lea => keywordScore strategyKeywords m
  | .sophie => keywordScore projectKeywords m

/-- Decision step of `shouldRedirect` on the three scores `t` (marc),
`s` (lea), `p` (sophie): a stable descending sort of the list
`[marc, lea, sophie]` puts the first agent (in that order) attaining the
maximum at the head; redirect exactly when that best agent differs from
the current one, scores at least 1, and strictly beats the current
agent's score. -/
def redirectDecision (t s p : Nat) (c : AgentId) : Option AgentId :=
  let best : AgentId × Nat :=
    if t ≥ s ∧ t ≥ p then (AgentId.marc, t)
    else if s ≥ p then (AgentId.lea, s)
    else (AgentId.sophie, p)
  let currentScore : Nat :=
    match c with
    | .marc => t
    | .lea => s
    | .sophie => p
  if best.1 ≠ c ∧ 1 ≤ best.2 ∧ currentScore < best.2 then some best.1
  else none

/-- `shouldRedirect` of `api/team/chat.ts`: mid-conversation re-routing
on the narrower keyword taxonomy. -/
def shouldRedirect (message : Str) (current : AgentId) : Option AgentId :=
  redirectDecision (redirectScoreOf message AgentId.marc)
    (redirectScoreOf message AgentId.lea)
    (redirectScoreOf message AgentId.sophie) current






/-- Message roles of the diagnostic conversation. -/
inductive Role
  | user
  | assistant
deriving DecidableEq, Repr

/-- A conversation message (`Message` of the diagnostic chat handler). -/
structure Msg where
  role : Role
  content : Str
deriving DecidableEq, Repr

/-- The six maturity dimensions (`DiagnosticScores`). -/
structure DiagnosticScores where
  vision : Nat
  competences : Nat
  gouvernance : Nat
  processus : Nat
  data : Nat
  outils : Nat
deriving DecidableEq, Repr

/-- The value returned by `calculateScores`: scores plus grade, summary,
recommendations and pack. -/
structure ScoringResult where
  scores : DiagnosticScores
  grade : Str
  summary : Str
  recommendations : List Str
  pack : Str
deriving DecidableEq, Repr

/-- `ConversationState` of the diagnostic chat handler.  The handler's
own interface omits `email`/`sector`, but the object written by
`api/diagnostic/start.ts` carries them, so they are modelled as optional
fields; `initConversation` leaves them absent. -/
structure ConversationState where
  sessionId : Str
  firstName : Str
  messages : List Msg
  questionCount : Nat
  isComplete : Bool
  scores : Option DiagnosticScores := none
  grade : Option Str := none
  summary : Option Str := none
  recommendations : Option (List Str) := none
  pack : Option Str := none
  email : Option Str := none
  sector : Option Str := none
deriving DecidableEq, Repr

/-- The greeting template of `initConversation` (and of
`api/diagnostic/start.ts`), instantiated with the first name. -/
def greetingFor (firstName : Str) : Str :=
  "Bonjour ".data ++ firstName ++
    (" ! Je suis l\x27assistant ORPHEA. Je vais vous poser quelques questions pour évaluer la maturité IA de votre entreprise. Cela prendra environ 5 minutes.\n\nCommençons : combien de personnes travaillent dans votre entreprise, et quel est votre rôle ?").data

/-- The placeholder first name used when the session store has no state
for the incoming session id. -/
def visitorName : Str := "Visiteur".data

/-- `initConversation` of the diagnostic chat handler: a fresh state with
the greeting as only (assistant) message, `questionCount` 1 and
`isComplete` false; every optional field is absent. -/
def initConversation (sessionId firstName : Str) : ConversationState :=
  { sessionId := sessionId
    firstName := firstName
    messages := [⟨Role.assistant, greetingFor firstName⟩]
    questionCount := 1
    isComplete := false }

/-- The mock result of `calculateScores` used when no Anthropic client is
configured. -/
def mockScoringResult : ScoringResult :=
  { scores := ⟨45, 35, 25, 55, 40, 50⟩
    grade := "C".data
    summary := "Votre entreprise est en phase d\x27expérimentation avec l\x27IA.".data
    recommendations :=
      ["Formaliser une politique d\x27usage IA".data,
       "Identifier 2-3 cas d\x27usage pilotes".data,
       "Former les équipes aux fondamentaux".data]
    pack := "Pack 1".data }

/-- The fixed fallback result of `calculateScores` used when no JSON
object can be extracted from the completion-service reply. -/
def fallbackScoringResult : ScoringResult :=
  { scores := ⟨50, 50, 50, 50, 50, 50⟩
    grade := "C".data
    summary := "Analyse en cours.".data
    recommendations := ["Contactez-nous pour plus de détails.".data]
    pack := "Pack 1".data }

/-- `calculateScores` of the diagnostic chat handler.  The Anthropic call
and the JSON extraction are modelled by the parameters: `hasClient` is
whether an Anthropic client is configured, and `parsed` is the JSON
object extracted and parsed from the service reply (`none` when no
balanced `{...}` region parses).  With a client the parsed object's
fields are returned verbatim; on parse failure the fixed fallback is
returned; without a client the mock result is returned. -/
def calculateScores (hasClient : Bool) (parsed : Option ScoringResult) : ScoringResult :=
  if hasClient then
    match parsed with
    | some r => r
    | none => fallbackScoringResult
  else mockScoringResult

/-- Number of assistant messages in a conversation. -/
def countAssistant (l : List Msg) : Nat :=
  l.countP (fun m => m.role == Role.assistant)

/-- The JSON body returned by the diagnostic chat handler (`null`-able
fields as `Option`; the cached branch returns no `questionCount`). -/
structure ChatResponse where
  success : Bool
  message : Str
  questionCount : Option Nat
  isComplete : Bool
  scores : Option DiagnosticScores
  grade : Option Str
  summary : Option Str
  recommendations : Option (List Str)
  pack : Option Str
deriving DecidableEq, Repr

/-- Result of one request to the diagnostic chat handler: the state after
the request, the response body, the number of `callClaude` and
`calculateScores` invocations, and the states written to the session
store (in order). -/
structure ChatResult where
  finalState : ConversationState
  response : ChatResponse
  claudeCalls : Nat
  scoringCalls : Nat
  saves : List ConversationState
deriving DecidableEq, Repr

/-- The fixed message of the re-entry branch. -/
def alreadyDoneMsg : Str := "Le diagnostic est déjà terminé.".data

/-- Response of the re-entry branch: the cached result of the completed
session, with no `questionCount` field. -/
def cachedResponse (st : ConversationState) : ChatResponse :=
  { success := true
    message := alreadyDoneMsg
    questionCount := none
    isComplete := true
    scores := st.scores
    grade := st.grade
    summary := st.summary
    recommendations := st.recommendations
    pack := st.pack }

/-- Core of the diagnostic chat handler once a state is at hand:
either the re-entry branch (completed session: cached response, no
external call, no further write), or one interview turn (append the
sanitized user message, call the service — its reply is the `reply`
parameter — detect and strip the sentinel, append the assistant
message, increment `questionCount`, on completion run `calculateScores`
— modelled by the `scoring` parameter — and save). -/
def chatStep (st0 : ConversationState) (priorSaves : List ConversationState)
    (sanitized reply : Str) (scoring : ScoringResult) : ChatResult :=
  if st0.isComplete then
    { finalState := st0
      response := cachedResponse st0
      claudeCalls := 0
      scoringCalls := 0
      saves := priorSaves }
  else
    let st1 : ConversationState :=
      { st0 with messages := st0.messages ++ [⟨Role.user, sanitized⟩] }
    let complete := containsSub reply completeSentinel
    let clean := jsTrim (dropFirstOcc completeSentinel reply)
    let st2 : ConversationState :=
      { st1 with
          messages := st1.messages ++ [⟨Role.assistant, clean⟩]
          questionCount := st1.questionCount + 1 }
    let st3 : ConversationState :=
      if complete then
        { st2 with
            isComplete := true
            scores := some scoring.scores
            grade := some scoring.grade
            summary := some scoring.summary
            recommendations := some scoring.recommendations
            pack := some scoring.pack }
      else st2
    { finalState := st3
      response :=
        { success := true
          message := clean
          questionCount := some st3.questionCount
          isComplete := st3.isComplete
          scores := if complete then some scoring.scores else none
          grade := if complete then some scoring.grade else none
          summary := if complete then some scoring.summary else none
          recommendations := if complete then some scoring.recommendations else none
          pack := if complete then some scoring.pack else none }
      claudeCalls := 1
      scoringCalls := if complete then 1 else 0
      saves := priorSaves ++ [st3] }

/-- The diagnostic chat handler for one validated request.  `stored` is
what `getConversation` returns from the store; a missing state is
replaced by a fresh `initConversation` with the placeholder name, which
is immediately saved.  `reply` is the completion-service reply text and
`scoring` the result of `calculateScores` (both external calls modelled
as parameters; the call counters record whether they were used). -/
def chatHandler (stored : Option ConversationState) (sessionId message reply : Str)
    (scoring : ScoringResult) : ChatResult :=
  let sanitized := sanitizeInput message
  match stored with
  | some st => chatStep st [] sanitized reply scoring
  | none =>
    let st0 := initConversation sessionId visitorName
    chatStep st0 [st0] sanitized reply scoring

/-- A session id for concrete runs. -/
def demoSessionId : Str := "11111111-1111-4111-8111-111111111111".data

/-- A service reply that does not contain the completion sentinel. -/
def noSentinelReply : Str := "Merci. Question suivante ?".data

/-- Iterated interview turns from a fresh session, every service reply
lacking the sentinel: `runTurns n` is the state after `n` user turns. -/
def runTurns : Nat → ConversationState
  | 0 => initConversation demoSessionId visitorName
  | n + 1 =>
    (chatHandler (some (runTurns n)) demoSessionId "réponse".data
      noSentinelReply fallbackScoringResult).finalState



/-- The arithmetic mean of the six dimension scores (integer division by
6, as in the average computed over the `ScoreSet`). -/
def meanScore (s : DiagnosticScores) : Nat :=
  (s.vision + s.competences + s.gouvernance + s.processus + s.data + s.outils) / 6

/-- Grade mapping stated by the specification (section 4.4), written from
the spec's words for comparison with the code: `m≥80→A, m≥60→B, m≥40→C,
m≥20→D, else E`. -/
def specGradeOfMean (m : Nat) : Str :=
  if 80 ≤ m then "A".data
  else if 60 ≤ m then "B".data
  else if 40 ≤ m then "C".data
  else if 20 ≤ m then "D".data
  else "E".data

/-- Pack mapping stated by the specification (section 4.4), written from
the spec's words for comparison with the code: grades D/E→Pack 1,
B/C→Pack 2, A→Pack 3 (any other string falls in no class; the spec's
grades are exactly A..E, mapped here with A→3, B/C→2, otherwise 1). -/
def specPackOfGrade (g : Str) : Str :=
  if g = "A".data then "Pack 3".data
  else if g = "B".data ∨ g = "C".data then "Pack 2".data
  else "Pack 1".data

/-- Raw body of a start-diagnostic request, after JSON decoding: the
fields validated by `startDiagnosticSchema` (absent optional fields are
`none`). -/
structure StartBody where
  firstName : Str
  email : Str
  company : Option Str
  sector : Str
  website : Option Str
deriving DecidableEq, Repr

/-- The `SECTORS` enumeration of `api/diagnostic/start.ts`. -/
def sectorList : List Str :=
  ["Services professionnels", "Finance et assurance", "Santé",
   "Technologies", "Commerce de détail", "Industrie manufacturière",
   "Construction", "Transport et logistique", "Éducation", "Autre"].map (·.data)

/-- `z.string().min(2).max(50)` on `firstName`. -/
def firstNameOk (s : Str) : Bool :=
  decide (2 ≤ s.length ∧ s.length ≤ 50)

/-- `z.string().max(100).optional()` on `company`. -/
def companyOk : Option Str → Bool
  | none => true
  | some s => decide (s.length ≤ 100)

/-- `z.enum(SECTORS)` on `sector`. -/
def sectorOk (s : Str) : Bool := sectorList.contains s

/-- `z.string().max(0).optional()` on the honeypot field `website`: the
field must be absent or have length at most 0. -/
def websiteOk : Option Str → Bool
  | none => true
  | some s => decide (s.length ≤ 0)

/-- The honeypot test of the handler, `input.website &&
input.website.trim() !== ''`: the field is present, truthy (non-empty),
and non-empty after trimming. -/
def honeypotHit : Option Str → Bool
  | none => false
  | some s => !s.isEmpty && !(jsTrim s).isEmpty

/-- Acceptance by `startDiagnosticSchema`.  The email well-formedness
check (`z.string().email().max(254)`) is abstracted as the `emailOk`
parameter; all other field checks are embedded. -/
def bodyValid (emailOk : Str → Bool) (b : StartBody) : Bool :=
  firstNameOk b.firstName && emailOk b.email && companyOk b.company &&
    sectorOk b.sector && websiteOk b.website

/-- Outcome of the start-diagnostic handler. -/
inductive StartOutcome
  | invalid
  | fakeSuccess
  | started
deriving DecidableEq, Repr

/-- Result of the start-diagnostic handler: the outcome, whether
`createLeadInNotion` was invoked, and whether the conversation state was
written to the session store. -/
structure StartResult where
  outcome : StartOutcome
  leadCreated : Bool
  sessionStored : Bool
deriving DecidableEq, Repr

/-- The start-diagnostic handler in request order: schema validation
first (a `ZodError` yields the 400 branch with no side effect), then the
honeypot branch (fake success, nothing created), then lead creation and
session initialization. -/
def startHandler (emailOk : Str → Bool) (b : StartBody) : StartResult :=
  if bodyValid emailOk b then
    if honeypotHit b.website then ⟨StartOutcome.fakeSuccess, false, false⟩
    else ⟨StartOutcome.started, true, true⟩
  else ⟨StartOutcome.invalid, false, false⟩

/-- Selector of the three redirect scores `t` (marc), `s` (lea),
`p` (sophie) by persona, matching `scores.find(s => s.agent ===
currentAgent)` of `shouldRedirect`. -/
def scoreSel (t s p : Nat) : AgentId → Nat
  | AgentId.marc => t
  | AgentId.lea => s
  | AgentId.sophie => p

/-- A concrete body for the start endpoint whose honeypot field is
non-empty. -/
def demoStartBody : StartBody :=
  { firstName := "Jean".data
    email := "jean@example.com".data
    company := none
    sector := "Technologies".data
    website := some "x".data }

/-- A concrete completed session used to witness the re-entry guard. -/
def demoCompletedState : ConversationState :=
  { sessionId := demoSessionId
    firstName := visitorName
    messages := [⟨Role.assistant, greetingFor visitorName⟩]
    questionCount := 8
    isComplete := true
    scores := some ⟨50, 50, 50, 50, 50, 50⟩
    grade := some "C".data
    summary := some "Analyse en cours.".data
    recommendations := some ["Contactez-nous pour plus de détails.".data]
    pack := some "Pack 1".data }

/-- C1 (counterexample): a completed session can carry the fallback
result of `calculateScores` (service reply unparsable), whose pack is
`Pack 1` although its grade is `C` and the claimed mapping sends grade
`C` (mean 50) to `Pack 2`; so pack is not the stated function of the
grade, and hence not the stated function of the `ScoreSet`. -/
theorem calculateScores_fallback_pack_mismatch :
    (calculateScores true none).grade = "C".data ∧
    (calculateScores true none).pack = "Pack 1".data ∧
    meanScore (calculateScores true none).scores = 50 ∧
    specGradeOfMean (meanScore (calculateScores true none).scores) = "C".data ∧
    specPackOfGrade (calculateScores true none).grade = "Pack 2".data ∧
    (calculateScores true none).pack
      ≠ specPackOfGrade (specGradeOfMean (meanScore (calculateScores true none).scores)) := by
  decide

/-- C1 (amended): grade and pack of a completed session are not computed
locally from the `ScoreSet`; `calculateScores` returns the
completion-service's parsed JSON fields verbatim, substituting the fixed
mock result when no client is configured and the fixed fallback on parse
failure — and both fixed results pair grade `C` with `Pack 1`, not the
`Pack 2` of the spec mapping. -/
theorem calculateScores_grade_pack_passthrough :
    ∀ (r : ScoringResult) (p : Option ScoringResult),
      calculateScores true (some r) = r ∧
      calculateScores true none = fallbackScoringResult ∧
      calculateScores false p = mockScoringResult ∧
      fallbackScoringResult.grade = "C".data ∧
      fallbackScoringResult.pack = "Pack 1".data ∧
      mockScoringResult.grade = "C".data ∧
      mockScoringResult.pack = "Pack 1".data := by
  intro r p
  exact ⟨rfl, rfl, rfl, by decide, by decide, by decide, by decide⟩

/-- C2 (counterexample): starting from a fresh session and running seven
interview turns in which the service reply never contains the sentinel,
`questionCount` reaches 8 while `isComplete` is still false — the code
has no cap at 7. -/
theorem questionCount_uncapped_run :
    (runTurns 7).questionCount = 8 ∧ (runTurns 7).isComplete = false := by
  decide

/-- C2 (amended): `questionCount` starts at 1 with one assistant message
and increases by exactly one per assistant turn, matching the number of
assistant messages; but completion is governed solely by the sentinel in
the service reply, and the handler imposes no cap at 7. -/
theorem questionCount_per_assistant_turn :
    ∀ (st : ConversationState) (sid fn msg reply : Str) (scoring : ScoringResult),
      (initConversation sid fn).questionCount = 1 ∧
      countAssistant (initConversation sid fn).messages = 1 ∧
      (st.isComplete = false →
        (chatHandler (some st) sid msg reply scoring).finalState.questionCount
            = st.questionCount + 1 ∧
        countAssistant (chatHandler (some st) sid msg reply scoring).finalState.messages
            = countAssistant st.messages + 1) := by
  intro st sid fn msg reply scoring
  refine ⟨rfl, by simp [initConversation, countAssistant], fun h => ?_⟩
  simp only [chatHandler, chatStep, h, Bool.false_eq_true, if_false]
  split <;>
    simp [countAssistant, List.countP_append]

/-- C2 witness: instantiating the per-turn invariant on a fresh session
and a sentinel-free reply. -/
theorem questionCount_per_assistant_turn_witness :
    (chatHandler (some (initConversation demoSessionId visitorName)) demoSessionId
        "bonjour".data noSentinelReply fallbackScoringResult).finalState.questionCount
      = (initConversation demoSessionId visitorName).questionCount + 1 :=
  ((questionCount_per_assistant_turn (initConversation demoSessionId visitorName)
      demoSessionId visitorName "bonjour".data noSentinelReply
      fallbackScoringResult).2.2 rfl).1

/-- C3: once a session is complete, any further request returns the
cached scores, grade, summary, recommendations and pack with the fixed
terminal message, performs no completion-service call and no scoring
call, writes nothing to the store, and leaves the state unchanged. -/
theorem completed_session_idempotent :
    ∀ (st : ConversationState) (sid msg reply : Str) (scoring : ScoringResult),
      st.isComplete = true →
      (chatHandler (some st) sid msg reply scoring).finalState = st ∧
      (chatHandler (some st) sid msg reply scoring).claudeCalls = 0 ∧
      (chatHandler (some st) sid msg reply scoring).scoringCalls = 0 ∧
      (chatHandler (some st) sid msg reply scoring).saves = [] ∧
      (chatHandler (some st) sid msg reply scoring).response
        = cachedResponse st ∧
      (chatHandler (some st) sid msg reply scoring).response.scores = st.scores ∧
      (chatHandler (some st) sid msg reply scoring).response.grade = st.grade ∧
      (chatHandler (some st) sid msg reply scoring).response.summary = st.summary ∧
      (chatHandler (some st) sid msg reply scoring).response.recommendations
        = st.recommendations ∧
      (chatHandler (some st) sid msg reply scoring).response.pack = st.pack ∧
      (chatHandler (some st) sid msg reply scoring).response.questionCount = none := by
  intro st sid msg reply scoring h
  simp [chatHandler, chatStep, h, cachedResponse]

/-- C3 witness: the re-entry guard on a concrete completed session. -/
theorem completed_session_idempotent_witness :
    (chatHandler (some demoCompletedState) demoSessionId "encore".data
        noSentinelReply fallbackScoringResult).finalState = demoCompletedState ∧
    (chatHandler (some demoCompletedState) demoSessionId "encore".data
        noSentinelReply fallbackScoringResult).claudeCalls = 0 :=
  let h := completed_session_idempotent demoCompletedState demoSessionId
    "encore".data noSentinelReply fallbackScoringResult rfl
  ⟨h.1, h.2.1⟩

/-- C4 (failing input): the sanitizer removes each marker in a single
pass, so removing a nested occurrence reconstructs the marker: the input
`[SYS[SYSTEM]TEM]` sanitizes to `[SYSTEM]` (a role marker survives), and
`[DIAGNOSTIC_[DIAGNOSTIC_COMPLETE]COMPLETE]` sanitizes to the completion
sentinel itself. -/
theorem sanitizeInput_nested_marker_survives :
    sanitizeInput "[SYS[SYSTEM]TEM]".data = "[SYSTEM]".data ∧
    containsSubCI (sanitizeInput "[SYS[SYSTEM]TEM]".data) systemMarker = true ∧
    sanitizeInput "[DIAGNOSTIC_[DIAGNOSTIC_COMPLETE]COMPLETE]".data
      = completeSentinel ∧
    containsSubCI (sanitizeInput "[DIAGNOSTIC_[DIAGNOSTIC_COMPLETE]COMPLETE]".data)
      completeSentinel = true := by
  decide

/-- C10: when the store has no state for the session id, the handler
does not fail: it builds a fresh state with first name `Visiteur`, the
standard greeting as only message, `questionCount` 1, `isComplete`
false and no email/sector/score fields, persists it first, and processes
the incoming message against it (one completion call, the sanitized user
message and the cleaned reply appended). -/
theorem missing_session_fresh_state :
    ∀ (sid msg reply : Str) (scoring : ScoringResult),
      (initConversation sid visitorName).firstName = visitorName ∧
      (initConversation sid visitorName).messages
          = [⟨Role.assistant, greetingFor visitorName⟩] ∧
      (initConversation sid visitorName).questionCount = 1 ∧
      (initConversation sid visitorName).isComplete = false ∧
      (initConversation sid visitorName).email = none ∧
      (initConversation sid visitorName).sector = none ∧
      (initConversation sid visitorName).scores = none ∧
      (chatHandler none sid msg reply scoring).saves.head?
          = some (initConversation sid visitorName) ∧
      (chatHandler none sid msg reply scoring).response.success = true ∧
      (chatHandler none sid msg reply scoring).claudeCalls = 1 ∧
      (chatHandler none sid msg reply scoring).finalState.messages
          = (initConversation sid visitorName).messages ++
            [⟨Role.user, sanitizeInput msg⟩,
             ⟨Role.assistant, jsTrim (dropFirstOcc completeSentinel reply)⟩] := by
  intro sid msg reply scoring
  refine ⟨rfl, rfl, rfl, rfl, rfl, rfl, rfl, ?_, ?_, ?_, ?_⟩
  · simp [chatHandler, chatStep, initConversation]
  · simp [chatHandler, chatStep, initConversation]
  · simp [chatHandler, chatStep, initConversation]
  · simp only [chatHandler, chatStep, initConversation]
    split
    · simp_all
    · split <;> rfl

/-- Helper: `pickAgent` returns `lea` whenever lea's score is at least
both others (lea is the first entry scanned by `find`). -/
theorem pickAgent_lea_of_max (sL sM sS : Nat) (h1 : sM ≤ sL) (h2 : sS ≤ sL) :
    pickAgent sL sM sS = AgentId.lea := by
  have hmax : max sL (max sM sS) = sL := by omega
  simp only [pickAgent, hmax]
  split_ifs <;> rfl

/-- Helper: in a marc/sophie tie strictly above lea, `pickAgent` returns
`marc` (the earlier of the tied entries), not the default persona. -/
theorem pickAgent_marc_of_tie (sL sM sS : Nat) (h1 : sM = sS) (h2 : sL < sM) :
    pickAgent sL sM sS = AgentId.marc := by
  have hmax : max sL (max sM sS) = sM := by omega
  simp only [pickAgent, hmax]
  split_ifs <;> first | rfl | omega

/-- C5 (counterexample): on the message `api projet`, marc and sophie
tie for the maximum keyword score (1 each, lea 0), and the router
returns marc — not the default strategy persona — because `find` scans
the score record in insertion order. -/
theorem routeByKeywords_tie_marc_sophie :
    routeByKeywords "api projet".data = AgentId.marc ∧
    AgentId.marc ≠ AgentId.lea ∧
    keywordScore marcKeywords (jsToLower "api projet".data) = 1 ∧
    keywordScore sophieKeywords (jsToLower "api projet".data) = 1 ∧
    keywordScore leaKeywords (jsToLower "api projet".data) = 0 := by
  decide

/-- C5 (amended): the strategy persona lea wins every tie in which its
own score reaches the maximum — including the all-zero case — but a tie
for the maximum between marc and sophie alone is resolved to marc (the
first of the tied entries in insertion order), not to the default
persona. -/
theorem routeByKeywords_default_tiebreak :
    ∀ msg : Str,
      (keywordScore marcKeywords (jsToLower msg) ≤ keywordScore leaKeywords (jsToLower msg) →
        keywordScore sophieKeywords (jsToLower msg) ≤ keywordScore leaKeywords (jsToLower msg) →
        routeByKeywords msg = AgentId.lea) ∧
      (keywordScore marcKeywords (jsToLower msg) = keywordScore sophieKeywords (jsToLower msg) →
        keywordScore leaKeywords (jsToLower msg) < keywordScore marcKeywords (jsToLower msg) →
        routeByKeywords msg = AgentId.marc) := by
  intro msg
  constructor
  · intro h1 h2
    simp only [routeByKeywords]
    exact pickAgent_lea_of_max _ _ _ h1 h2
  · intro h1 h2
    simp only [routeByKeywords]
    exact pickAgent_marc_of_tie _ _ _ h1 h2

/-- C5 witness: the all-zero message `bonjour` routes to lea, and the
marc/sophie tie `rag etape` routes to marc. -/
theorem routeByKeywords_default_tiebreak_witness :
    routeByKeywords "bonjour".data = AgentId.lea ∧
    routeByKeywords "rag etape".data = AgentId.marc :=
  ⟨(routeByKeywords_default_tiebreak "bonjour".data).1 (by decide) (by decide),
   (routeByKeywords_default_tiebreak "rag etape".data).2 (by decide) (by decide)⟩

/-- C6 (counterexample): on the message `rag` (keyword result marc), a
successful routing reply with the unrecognized text `xyz` makes
`routeByLLM` return the default lea, not `routeByKeywords`'s marc. -/
theorem routeByLLM_unrecognized_not_keyword :
    routeByLLM "rag".data (LLMOutcome.reply "xyz".data) = AgentId.lea ∧
    routeByKeywords "rag".data = AgentId.marc ∧
    routeByLLM "rag".data (LLMOutcome.reply "xyz".data)
      ≠ routeByKeywords "rag".data := by
  decide

/-- C6 (amended): when the completion call cannot be made (no client) or
throws, `routeByLLM` falls back to `routeByKeywords` on the same
message; but a successful reply that is not a recognized persona
identifier yields the default persona lea directly, so routing never
fails but does not reuse the keyword result in that case. -/
theorem routeByLLM_fallback_behavior :
    ∀ (msg t : Str),
      routeByLLM msg LLMOutcome.noClient = routeByKeywords msg ∧
      routeByLLM msg LLMOutcome.failure = routeByKeywords msg ∧
      (jsTrim (jsToLower t) ≠ "lea".data →
        jsTrim (jsToLower t) ≠ "marc".data →
        jsTrim (jsToLower t) ≠ "sophie".data →
        routeByLLM msg (LLMOutcome.reply t) = AgentId.lea) := by
  intro msg t
  refine ⟨rfl, rfl, fun h1 h2 h3 => ?_⟩
  simp only [routeByLLM]
  by_cases h0 : jsTrim (jsToLower t) = []
  · simp [h0]
  · simp [h0, h1, h2, h3]

/-- C6 witness: an unrecognized reply on a concrete message yields lea. -/
theorem routeByLLM_fallback_behavior_witness :
    routeByLLM "api".data (LLMOutcome.reply "bob".data) = AgentId.lea :=
  (routeByLLM_fallback_behavior "api".data "bob".data).2.2
    (by decide) (by decide) (by decide)

/-- C7: when the maximum keyword score is at least 2, `smartRoute`
returns the keyword-routed persona without using `routeByLLM`; and
whenever `routeByLLM` is used, the maximum keyword score was below 2. -/
theorem smartRoute_high_confidence_no_llm :
    ∀ (msg : Str) (o : LLMOutcome),
      (2 ≤ maxKeywordScore msg →
        smartRoute msg o = ⟨routeByKeywords msg, false⟩) ∧
      ((smartRoute msg o).llmUsed = true → maxKeywordScore msg < 2) := by
  intro msg o
  constructor
  · intro h
    simp [smartRoute, h]
  · intro h
    rcases Nat.lt_or_ge (maxKeywordScore msg) 2 with hlt | hge
    · exact hlt
    · simp [smartRoute, hge] at h

/-- C7 witness: `roi secteur` scores 2 for lea, so the router answers
directly with no completion-service use. -/
theorem smartRoute_high_confidence_no_llm_witness :
    smartRoute "roi secteur".data LLMOutcome.failure
      = ⟨routeByKeywords "roi secteur".data, false⟩ :=
  (smartRoute_high_confidence_no_llm "roi secteur".data LLMOutcome.failure).1
    (by decide)

/-- Helper: an existential over the three personas is a three-way
disjunction. -/
theorem exists_agent_iff (P : AgentId → Prop) :
    (∃ a, P a) ↔ P AgentId.marc ∨ P AgentId.lea ∨ P AgentId.sophie := by
  constructor
  · rintro ⟨a, h⟩
    cases a <;> tauto
  · rintro (h | h | h) <;> exact ⟨_, h⟩

/-- Helper: the redirect decision fires exactly when some challenger
scores at least 1 and strictly above the current persona. -/
theorem redirectDecision_iff (t s p : Nat) (c : AgentId) :
    redirectDecision t s p c ≠ none ↔
      ∃ a : AgentId, a ≠ c ∧ 1 ≤ scoreSel t s p a ∧
        scoreSel t s p c < scoreSel t s p a := by
  rw [exists_agent_iff]
  cases c <;>
    simp only [redirectDecision, scoreSel] <;>
    split_ifs <;>
    simp_all <;>
    omega

/-- Helper: the selector applied to a persona's own redirect scores is
that persona's redirect score. -/
theorem scoreSel_redirect (msg : Str) (a : AgentId) :
    scoreSel (redirectScoreOf msg AgentId.marc) (redirectScoreOf msg AgentId.lea)
      (redirectScoreOf msg AgentId.sophie) a = redirectScoreOf msg a := by
  cases a <;> rfl

/-- C8: the mid-conversation redirector switches persona if and only if
some challenger persona scores at least 1 on the narrow taxonomy and
strictly more than the current persona on the same message; in
particular a challenger merely tying the current persona never causes a
switch. -/
theorem shouldRedirect_iff_hysteresis :
    ∀ (msg : Str) (c : AgentId),
      shouldRedirect msg c ≠ none ↔
        ∃ a : AgentId, a ≠ c ∧ 1 ≤ redirectScoreOf msg a ∧
          redirectScoreOf msg c < redirectScoreOf msg a := by
  intro msg c
  have hb : shouldRedirect msg c
      = redirectDecision (redirectScoreOf msg AgentId.marc)
        (redirectScoreOf msg AgentId.lea)
        (redirectScoreOf msg AgentId.sophie) c := rfl
  rw [hb, redirectDecision_iff]
  exact exists_congr fun a => by rw [scoreSel_redirect, scoreSel_redirect]

/-- C9: no request body accepted by `startDiagnosticSchema` can reach
the honeypot branch (the schema forces `website` to be absent or empty,
and the handler's bot test needs it non-empty), and a body with a
non-empty `website` is rejected by validation with no lead created and
no session stored. -/
theorem honeypot_unreachable_after_validation :
    ∀ (emailOk : Str → Bool) (b : StartBody) (s : Str),
      (startHandler emailOk b).outcome ≠ StartOutcome.fakeSuccess ∧
      (b.website = some s → s ≠ [] →
        startHandler emailOk b = ⟨StartOutcome.invalid, false, false⟩) := by
  intro emailOk b s
  constructor
  · unfold startHandler
    split_ifs with hv hh
    · exfalso
      have hw : websiteOk b.website = true := by
        simp only [bodyValid, Bool.and_eq_true] at hv
        exact hv.2
      cases hb : b.website with
      | none => rw [hb] at hh; simp [honeypotHit] at hh
      | some w =>
        rw [hb] at hw
        simp only [websiteOk, decide_eq_true_eq, Nat.le_zero,
          List.length_eq_zero] at hw
        rw [hb, hw] at hh
        simp [honeypotHit] at hh
    · simp
    · simp
  · intro hw hs
    have hwv : websiteOk b.website = false := by
      rw [hw]
      simp only [websiteOk, decide_eq_false_iff_not, Nat.le_zero,
        List.length_eq_zero]
      exact hs
    have hbv : bodyValid emailOk b = false := by
      simp [bodyValid, hwv]
    simp [startHandler, hbv]

/-- C9 witness: a body with honeypot value `x` is rejected outright. -/
theorem honeypot_unreachable_after_validation_witness :
    startHandler (fun _ => true) demoStartBody
      = ⟨StartOutcome.invalid, false, false⟩ :=
  (honeypot_unreachable_after_validation (fun _ => true) demoStartBody "x".data).2
    rfl (by decide)

end Orphea
